import Mathlib

/-!
Shallow embedding of the Drone-Panel telemetry API
(`src/app/api/flightdata/route.ts`, table `unity_data` from `schema.sql`),
together with theorems settling the specification's claims about it.

Modelling conventions:
* JavaScript numbers are modelled as `Int`: the route performs no arithmetic
  on the telemetry fields, only equality and order comparison on `timestamp`.
* The Cloudflare D1 database is modelled as the list of rows of the single
  `unity_data` table plus the next AUTOINCREMENT id; `created_at` is filled
  from an explicit wall-clock argument.
* SQLite orders rows with equal `timestamp` by the rowid order of the index
  scan that serves the query (the schema creates `idx_timestamp` and
  `idx_device_timestamp`, which the three SELECTs use): a descending scan
  yields larger rowids first, an ascending scan smaller rowids first.  The
  sort keys below therefore break `timestamp` ties by `id`, in the direction
  of the scan.
* `LIMIT ?` is modelled for non-negative limits (`Nat`), the range the
  handlers use; parsing of the query string into numbers is not modelled.
-/

/-- The `velocity: {x, y, z}` sub-object of `UnityData` (src/types/index.ts). -/
structure Velocity where
  x : Int
  y : Int
  z : Int
deriving DecidableEq

/-- The `UnityData` payload interface (src/types/index.ts). -/
structure UnityData where
  deviceId : String
  formattedTime : String
  timestamp : Int
  latitude : Int
  longitude : Int
  pitch : Int
  yaw : Int
  roll : Int
  speed : Int
  velocity : Velocity
  horizontalSpeed : Int
  verticalSpeed : Int
  flightDirection : Int
  groundDistance : Int
deriving DecidableEq

/-- One row of the `unity_data` table (schema.sql): the sample's columns plus
the server-assigned AUTOINCREMENT `id` and `created_at`. -/
structure UnityRow where
  id : Nat
  device_id : String
  formatted_time : String
  timestamp : Int
  latitude : Int
  longitude : Int
  pitch : Int
  yaw : Int
  roll : Int
  speed : Int
  velocity_x : Int
  velocity_y : Int
  velocity_z : Int
  horizontal_speed : Int
  vertical_speed : Int
  flight_direction : Int
  ground_distance : Int
  created_at : Nat
deriving DecidableEq

/-- State of the D1 database: the rows of `unity_data` in insertion order and
the next AUTOINCREMENT id. -/
structure D1State where
  rows : List UnityRow
  nextId : Nat
deriving DecidableEq

/-- The empty database, as created by schema.sql (AUTOINCREMENT starts at 1). -/
def D1State.empty : D1State := { rows := [], nextId := 1 }

/-- The 16 bound columns of the INSERT statement shared by `writeData` and
`writeBatchData` (route.ts lines 34-60), materialised into a row with the
server-assigned `id` and `created_at`. -/
def bindRow (data : UnityData) (id : Nat) (created : Nat) : UnityRow :=
  { id := id
    device_id := data.deviceId
    formatted_time := data.formattedTime
    timestamp := data.timestamp
    latitude := data.latitude
    longitude := data.longitude
    pitch := data.pitch
    yaw := data.yaw
    roll := data.roll
    speed := data.speed
    velocity_x := data.velocity.x
    velocity_y := data.velocity.y
    velocity_z := data.velocity.z
    horizontal_speed := data.horizontalSpeed
    vertical_speed := data.verticalSpeed
    flight_direction := data.flightDirection
    ground_distance := data.groundDistance
    created_at := created }

/-- `UnityDataWriter.writeData` (route.ts lines 33-62): a single INSERT into
`unity_data`, committed synchronously. -/
def writeData (db : D1State) (data : UnityData) (created : Nat) : D1State :=
  { rows := db.rows ++ [bindRow data db.nextId created]
    nextId := db.nextId + 1 }

/-- Models Cloudflare D1 `D1Database.batch` (used by route.ts line 97): the
prepared statements run inside a single implicit transaction, and if any
statement fails the whole transaction is rolled back.  `failsAt` injects a
failure for the statement at the given position; the `Bool` in the result is
`true` exactly when the batch committed. -/
def d1Batch (db : D1State) (stmts : List UnityData) (failsAt : Nat → Bool)
    (created : Nat) : Bool × D1State :=
  if (List.range stmts.length).any failsAt then
    (false, db)
  else
    (true, stmts.foldl (fun d s => writeData d s created) db)

/-- `UnityDataWriter.writeBatchData` (route.ts lines 65-98): binds each
element of `dataArray` to the shared INSERT statement and submits the list to
`db.batch`. -/
def writeBatchData (db : D1State) (dataArray : List UnityData)
    (failsAt : Nat → Bool) (created : Nat) : Bool × D1State :=
  d1Batch db dataArray failsAt created

/-- Sort order of `ORDER BY timestamp DESC` served by a descending index
scan: larger `timestamp` first, ties broken by larger rowid (`id`) first. -/
def tsDescLe (a b : UnityRow) : Prop :=
  b.timestamp < a.timestamp ∨ (a.timestamp = b.timestamp ∧ b.id ≤ a.id)

instance : DecidableRel tsDescLe := by
  unfold tsDescLe
  infer_instance

/-- Sort order of `ORDER BY timestamp ASC` served by an ascending index
scan: smaller `timestamp` first, ties broken by smaller rowid (`id`) first. -/
def tsAscLe (a b : UnityRow) : Prop :=
  a.timestamp < b.timestamp ∨ (a.timestamp = b.timestamp ∧ a.id ≤ b.id)

instance : DecidableRel tsAscLe := by
  unfold tsAscLe
  infer_instance

instance : IsTotal UnityRow tsDescLe where
  total a b := by
    unfold tsDescLe
    rcases lt_trichotomy a.timestamp b.timestamp with h | h | h
    · exact Or.inr (Or.inl h)
    · rcases Nat.le_total a.id b.id with hid | hid
      · exact Or.inr (Or.inr ⟨h.symm, hid⟩)
      · exact Or.inl (Or.inr ⟨h, hid⟩)
    · exact Or.inl (Or.inl h)

instance : IsTrans UnityRow tsDescLe where
  trans a b c hab hbc := by
    unfold tsDescLe at *
    rcases hab with h1 | ⟨h1, h1'⟩ <;> rcases hbc with h2 | ⟨h2, h2'⟩
    · exact Or.inl (h2.trans h1)
    · exact Or.inl (h2 ▸ h1)
    · exact Or.inl (h1 ▸ h2)
    · exact Or.inr ⟨h1.trans h2, h2'.trans h1'⟩

instance : IsTotal UnityRow tsAscLe where
  total a b := by
    unfold tsAscLe
    rcases lt_trichotomy a.timestamp b.timestamp with h | h | h
    · exact Or.inl (Or.inl h)
    · rcases Nat.le_total a.id b.id with hid | hid
      · exact Or.inl (Or.inr ⟨h, hid⟩)
      · exact Or.inr (Or.inr ⟨h.symm, hid⟩)
    · exact Or.inr (Or.inl h)

instance : IsTrans UnityRow tsAscLe where
  trans a b c hab hbc := by
    unfold tsAscLe at *
    rcases hab with h1 | ⟨h1, h1'⟩ <;> rcases hbc with h2 | ⟨h2, h2'⟩
    · exact Or.inl (h1.trans h2)
    · exact Or.inl (h2 ▸ h1)
    · exact Or.inl (h1 ▸ h2)
    · exact Or.inr ⟨h1.trans h2, h1'.trans h2'⟩

/-- `UnityDataWriter.getLatestData` (route.ts lines 101-111):
`SELECT * FROM unity_data WHERE device_id = ? ORDER BY timestamp DESC LIMIT ?`. -/
def getLatestData (db : D1State) (deviceId : String) (limit : Nat) :
    List UnityRow :=
  (((db.rows.filter fun r => r.device_id == deviceId).insertionSort
    tsDescLe).take limit)

/-- `UnityDataWriter.getAllLatestData` (route.ts lines 114-123):
`SELECT * FROM unity_data ORDER BY timestamp DESC LIMIT ?`. -/
def getAllLatestData (db : D1State) (limit : Nat) : List UnityRow :=
  ((db.rows.insertionSort tsDescLe).take limit)

/-- `UnityDataWriter.getDataByTimeRange` (route.ts lines 126-139):
`SELECT * FROM unity_data WHERE device_id = ? AND timestamp >= ? AND
timestamp <= ? ORDER BY timestamp ASC` — no LIMIT clause. -/
def getDataByTimeRange (db : D1State) (deviceId : String)
    (startTime endTime : Int) : List UnityRow :=
  ((db.rows.filter fun r =>
      r.device_id == deviceId && decide (startTime ≤ r.timestamp) &&
        decide (r.timestamp ≤ endTime)).insertionSort tsAscLe)

/-- The JSON body of a POST request as `request.json()` delivers it: the two
fields the handler validates may be absent (`none`); the remaining columns
are carried as-is. -/
structure RawData where
  deviceId : Option String
  formattedTime : String
  timestamp : Option Int
  latitude : Int
  longitude : Int
  pitch : Int
  yaw : Int
  roll : Int
  speed : Int
  velocity : Velocity
  horizontalSpeed : Int
  verticalSpeed : Int
  flightDirection : Int
  groundDistance : Int
deriving DecidableEq

/-- JavaScript falsiness of `data.deviceId` (a possibly-absent string):
`undefined`/`null` and `""` are falsy. -/
def jsFalsyStr : Option String → Bool
  | none => true
  | some s => s == ""

/-- JavaScript falsiness of `data.timestamp` (a possibly-absent number):
`undefined`/`null` and `0` are falsy. -/
def jsFalsyInt : Option Int → Bool
  | none => true
  | some n => n == 0

/-- The POST handler's validation condition
`!data.deviceId || !data.timestamp` (route.ts line 160). -/
def postInvalid (raw : RawData) : Bool :=
  jsFalsyStr raw.deviceId || jsFalsyInt raw.timestamp

/-- The `UnityData` the handler passes to `writeData` once validation has
passed (on that path `deviceId` and `timestamp` are present). -/
def toUnityData (raw : RawData) : UnityData :=
  { deviceId := raw.deviceId.getD ""
    formattedTime := raw.formattedTime
    timestamp := raw.timestamp.getD 0
    latitude := raw.latitude
    longitude := raw.longitude
    pitch := raw.pitch
    yaw := raw.yaw
    roll := raw.roll
    speed := raw.speed
    velocity := raw.velocity
    horizontalSpeed := raw.horizontalSpeed
    verticalSpeed := raw.verticalSpeed
    flightDirection := raw.flightDirection
    groundDistance := raw.groundDistance }

/-- Outcome of the POST handler, one constructor per return site of
route.ts lines 142-189. -/
inductive PostOutcome where
  | dbUnavailable
  | parseFailed
  | rejected
  | success (deviceId : String) (timestamp : Int) (formattedTime : String)
deriving DecidableEq

/-- HTTP status attached to each POST return site. -/
def PostOutcome.status : PostOutcome → Nat
  | .dbUnavailable => 500
  | .parseFailed => 500
  | .rejected => 400
  | .success _ _ _ => 200

/-- The `error` field of each POST return site (`none` on success). -/
def PostOutcome.errorMessage : PostOutcome → Option String
  | .dbUnavailable => some "Database not available"
  | .parseFailed => some "Failed to save data"
  | .rejected => some "Invalid data format: missing deviceId or timestamp"
  | .success _ _ _ => none

/-- The POST handler (route.ts lines 142-189).  `dbAvailable` models whether
`getCloudflareEnv()` yields a D1 binding; `body` is `none` when
`request.json()` throws (the catch block answers 500).  The availability
check precedes body parsing and validation, exactly as in the source. -/
def handlePost (dbAvailable : Bool) (body : Option RawData) (created : Nat)
    (db : D1State) : PostOutcome × D1State :=
  if !dbAvailable then
    (.dbUnavailable, db)
  else
    match body with
    | none => (.parseFailed, db)
    | some raw =>
      if postInvalid raw then
        (.rejected, db)
      else
        let data := toUnityData raw
        (.success data.deviceId data.timestamp data.formattedTime,
          writeData db data created)

/-- Query-string parameters of a GET request as `searchParams.get` delivers
them (`none` when the parameter is absent).  The `limit` field carries the
already-parsed `parseInt(searchParams.get("limit") || "10")` value; numeric
parsing of the query string is not modelled. -/
structure GetParams where
  deviceId : Option String
  limit : Nat
  startTime : Option String
  endTime : Option String

/-- JavaScript truthiness of a `searchParams.get` result. -/
def jsTruthy (o : Option String) : Bool := !(jsFalsyStr o)

/-- Models `parseInt` on the canonical decimal numerals the range branch
receives; other `parseInt` behaviours are outside the modelled range. -/
def parseDec (s : String) : Int := (s.toInt?).getD 0

/-- Outcome of the GET handler, one constructor per return site of
route.ts lines 191-250. -/
inductive GetOutcome where
  | dbUnavailable
  | rangeResponse (data : List UnityRow) (deviceId : String)
      (startTime endTime : String) (count : Nat)
  | deviceResponse (data : List UnityRow) (deviceId : String) (limit : Nat)
      (count : Nat)
  | allResponse (data : List UnityRow) (limit : Nat) (count : Nat)
deriving DecidableEq

/-- HTTP status attached to each GET return site. -/
def GetOutcome.status : GetOutcome → Nat
  | .dbUnavailable => 500
  | _ => 200

/-- The `error` field of each GET return site (`none` on success). -/
def GetOutcome.errorMessage : GetOutcome → Option String
  | .dbUnavailable => some "Database not available"
  | _ => none

/-- The GET handler (route.ts lines 191-250): availability check, then the
three-way branch `deviceId && startTime && endTime` / `deviceId` / neither,
with JavaScript truthiness on the raw parameter strings. -/
def handleGet (dbAvailable : Bool) (p : GetParams) (db : D1State) :
    GetOutcome :=
  if !dbAvailable then
    .dbUnavailable
  else if jsTruthy p.deviceId && jsTruthy p.startTime && jsTruthy p.endTime then
    let d := p.deviceId.getD ""
    let st := p.startTime.getD ""
    let et := p.endTime.getD ""
    let data := getDataByTimeRange db d (parseDec st) (parseDec et)
    .rangeResponse data d st et data.length
  else if jsTruthy p.deviceId then
    let d := p.deviceId.getD ""
    let data := getLatestData db d p.limit
    .deviceResponse data d p.limit data.length
  else
    let data := getAllLatestData db p.limit
    .allResponse data p.limit data.length

/-- A row records a sample when every sample-supplied column equals the
corresponding sample field. -/
def rowRecords (r : UnityRow) (s : UnityData) : Prop :=
  r.device_id = s.deviceId ∧ r.formatted_time = s.formattedTime ∧
  r.timestamp = s.timestamp ∧ r.latitude = s.latitude ∧
  r.longitude = s.longitude ∧ r.pitch = s.pitch ∧ r.yaw = s.yaw ∧
  r.roll = s.roll ∧ r.speed = s.speed ∧ r.velocity_x = s.velocity.x ∧
  r.velocity_y = s.velocity.y ∧ r.velocity_z = s.velocity.z ∧
  r.horizontal_speed = s.horizontalSpeed ∧
  r.vertical_speed = s.verticalSpeed ∧
  r.flight_direction = s.flightDirection ∧
  r.ground_distance = s.groundDistance

instance (r : UnityRow) (s : UnityData) : Decidable (rowRecords r s) := by
  unfold rowRecords
  infer_instance

/-- Transcribed from the spec's validation sentence: a sample is invalid if
`deviceId` is empty/absent or `timestamp` is absent (in this integer model
every present timestamp is representable as an integer). -/
def specInvalid (raw : RawData) : Prop :=
  raw.deviceId = none ∨ raw.deviceId = some "" ∨ raw.timestamp = none

instance (raw : RawData) : Decidable (specInvalid raw) := by
  unfold specInvalid
  infer_instance

/-- A sample with all telemetry fields zero, used for concrete scenarios. -/
def mkSample (d : String) (t : Int) : UnityData :=
  { deviceId := d
    formattedTime := ""
    timestamp := t
    latitude := 0
    longitude := 0
    pitch := 0
    yaw := 0
    roll := 0
    speed := 0
    velocity := { x := 0, y := 0, z := 0 }
    horizontalSpeed := 0
    verticalSpeed := 0
    flightDirection := 0
    groundDistance := 0 }

/-- The spec's concrete scenario database: `A@100`, `A@300`, `B@200`
inserted in that order into an empty store. -/
def dbScenario : D1State :=
  writeData (writeData (writeData D1State.empty (mkSample "A" 100) 0)
    (mkSample "A" 300) 0) (mkSample "B" 200) 0

/-- A raw POST body with all telemetry fields zero, used for concrete
scenarios. -/
def mkRaw (d : Option String) (t : Option Int) : RawData :=
  { deviceId := d
    formattedTime := ""
    timestamp := t
    latitude := 0
    longitude := 0
    pitch := 0
    yaw := 0
    roll := 0
    speed := 0
    velocity := { x := 0, y := 0, z := 0 }
    horizontalSpeed := 0
    verticalSpeed := 0
    flightDirection := 0
    groundDistance := 0 }

/-! Helper lemmas. -/

@[simp]
lemma bindRow_device_id (s : UnityData) (i c : Nat) :
    (bindRow s i c).device_id = s.deviceId := rfl

@[simp]
lemma bindRow_timestamp (s : UnityData) (i c : Nat) :
    (bindRow s i c).timestamp = s.timestamp := rfl

@[simp]
lemma bindRow_id (s : UnityData) (i c : Nat) : (bindRow s i c).id = i := rfl

lemma rowRecords_bindRow (s : UnityData) (i c : Nat) :
    rowRecords (bindRow s i c) s :=
  ⟨rfl, rfl, rfl, rfl, rfl, rfl, rfl, rfl, rfl, rfl, rfl, rfl, rfl, rfl, rfl,
    rfl⟩

lemma mem_rows_foldl_writeData (c : Nat) (l : List UnityData) (db : D1State)
    {r : UnityRow} (h : r ∈ db.rows) :
    r ∈ (l.foldl (fun d s => writeData d s c) db).rows := by
  induction l generalizing db with
  | nil => exact h
  | cons a t ih =>
    exact ih (writeData db a c) (List.mem_append_left _ h)

lemma foldl_writeData_records (c : Nat) (l : List UnityData) (db : D1State) :
    ∀ s ∈ l, ∃ r ∈ (l.foldl (fun d s => writeData d s c) db).rows,
      rowRecords r s := by
  induction l generalizing db with
  | nil => intro s hs; cases hs
  | cons a t ih =>
    intro s hs
    rcases List.mem_cons.mp hs with rfl | hs
    · refine ⟨bindRow s db.nextId c, ?_, rowRecords_bindRow s db.nextId c⟩
      exact mem_rows_foldl_writeData c t (writeData db s c)
        (List.mem_append_right _ (List.mem_singleton.mpr rfl))
    · exact ih (writeData db a c) s hs

lemma take_one_insertionSort_eq (l : List UnityRow) (m : UnityRow)
    (hm : m ∈ l)
    (hmax : ∀ x ∈ l, x = m ∨ (tsDescLe m x ∧ ¬ tsDescLe x m)) :
    (l.insertionSort tsDescLe).take 1 = [m] := by
  have hperm := List.perm_insertionSort tsDescLe l
  have hsorted := List.sorted_insertionSort tsDescLe l
  cases hs : l.insertionSort tsDescLe with
  | nil =>
    rw [hs] at hperm
    cases hperm.symm.subset hm
  | cons z zs =>
    rw [hs] at hperm hsorted
    have hz : z ∈ l := hperm.subset (List.mem_cons_self z zs)
    have hmem : m ∈ z :: zs := hperm.symm.subset hm
    rcases List.mem_cons.mp hmem with he | hin
    · rw [he]; rfl
    · rcases hmax z hz with rfl | ⟨_, hnot⟩
      · rfl
      · exact absurd (List.rel_of_sorted_cons hsorted m hin) hnot

/-! Claim theorems. -/

/-- C5: for every input that fails the POST handler's validation, the handler
answers `rejected` (400) and the database state is unchanged — the store is
never touched on a validation failure. -/
theorem handlePost_invalid_rejected (raw : RawData) (created : Nat)
    (db : D1State) (h : postInvalid raw = true) :
    handlePost true (some raw) created db = (.rejected, db) := by
  simp [handlePost, h]

/-- Witness for C5 at a concrete invalid body (absent deviceId). -/
theorem handlePost_invalid_rejected_witness :
    postInvalid (mkRaw none (some 5)) = true ∧
    handlePost true (some (mkRaw none (some 5))) 0 D1State.empty =
      (.rejected, D1State.empty) :=
  ⟨by decide, handlePost_invalid_rejected (mkRaw none (some 5)) 0
    D1State.empty (by decide)⟩

/-- C7: with reversed bounds (`startTime > endTime`) the range query returns
the empty sequence; the bounds are not validated and no error is signalled
(the function is total and answers a plain list). -/
theorem getDataByTimeRange_reversed_empty (db : D1State) (d : String)
    (startTime endTime : Int) (h : endTime < startTime) :
    getDataByTimeRange db d startTime endTime = [] := by
  unfold getDataByTimeRange
  have hf : (db.rows.filter fun r =>
      r.device_id == d && decide (startTime ≤ r.timestamp) &&
        decide (r.timestamp ≤ endTime)) = [] := by
    rw [List.filter_eq_nil_iff]
    intro r _
    simp only [Bool.and_eq_true, decide_eq_true_eq, not_and]
    intro h1 h2
    omega
  rw [hf]
  rfl

/-- Witness for C7 on a nonempty database with reversed bounds. -/
theorem getDataByTimeRange_reversed_empty_witness :
    (100 : Int) < 300 ∧ getDataByTimeRange dbScenario "A" 300 100 = [] :=
  ⟨by decide, getDataByTimeRange_reversed_empty dbScenario "A" 300 100
    (by decide)⟩

/-- C8: querying the latest data of a device with no stored records returns
the empty sequence; an unknown device is not an error (the function is total
and answers a plain list). -/
theorem getLatestData_unknown_device_empty (db : D1State) (d : String)
    (limit : Nat) (h : ∀ r ∈ db.rows, r.device_id ≠ d) :
    getLatestData db d limit = [] := by
  unfold getLatestData
  have hf : (db.rows.filter fun r => r.device_id == d) = [] := by
    rw [List.filter_eq_nil_iff]
    intro r hr
    simpa using h r hr
  rw [hf]
  simp [List.insertionSort]

/-- Witness for C8 on a nonempty database and a device it does not hold. -/
theorem getLatestData_unknown_device_empty_witness :
    (∀ r ∈ dbScenario.rows, r.device_id ≠ "C") ∧
    getLatestData dbScenario "C" 10 = [] :=
  ⟨by decide, getLatestData_unknown_device_empty dbScenario "C" 10
    (by decide)⟩

/-- C10: while the database binding is unavailable both handlers answer the
storage failure `Database not available` with status 500 and leave the
store untouched; for POST the check precedes body parsing, so even a
malformed body (`none`) yields the storage failure, not a validation
rejection. -/
theorem db_unavailable_responses :
    (∀ (body : Option RawData) (created : Nat) (db : D1State),
      handlePost false body created db = (.dbUnavailable, db)) ∧
    PostOutcome.dbUnavailable.status = 500 ∧
    PostOutcome.dbUnavailable.errorMessage = some "Database not available" ∧
    (∀ (p : GetParams) (db : D1State), handleGet false p db = .dbUnavailable) ∧
    GetOutcome.dbUnavailable.status = 500 ∧
    GetOutcome.dbUnavailable.errorMessage = some "Database not available" := by
  refine ⟨?_, rfl, rfl, ?_, rfl, rfl⟩
  · intro body created db
    simp [handlePost]
  · intro p db
    simp [handleGet]

/-- C9: a GET request carrying a truthy deviceId and exactly one of
startTime/endTime falls through to the latest-for-device branch, ignoring
the supplied time bound, rather than running a range query or reporting an
error. -/
theorem handleGet_single_bound_falls_through (p : GetParams) (db : D1State)
    (hd : jsTruthy p.deviceId = true)
    (hone : jsTruthy p.startTime ≠ jsTruthy p.endTime) :
    handleGet true p db =
      .deviceResponse (getLatestData db (p.deviceId.getD "") p.limit)
        (p.deviceId.getD "") p.limit
        (getLatestData db (p.deviceId.getD "") p.limit).length := by
  cases hst : jsTruthy p.startTime <;> cases het : jsTruthy p.endTime
  · simp [handleGet, hd, hst, het]
  · simp [handleGet, hd, hst, het]
  · simp [handleGet, hd, hst, het]
  · rw [hst, het] at hone
    exact absurd rfl hone

/-- Witness for C9: deviceId present, startTime present, endTime absent. -/
theorem handleGet_single_bound_falls_through_witness :
    jsTruthy (some "A") = true ∧
    (jsTruthy (some "100") ≠ jsTruthy (none : Option String)) ∧
    handleGet true
      { deviceId := some "A", limit := 10, startTime := some "100",
        endTime := none } dbScenario =
      .deviceResponse (getLatestData dbScenario "A" 10) "A" 10
        (getLatestData dbScenario "A" 10).length :=
  ⟨by decide, by decide,
    handleGet_single_bound_falls_through
      { deviceId := some "A", limit := 10, startTime := some "100",
        endTime := none } dbScenario (by decide) (by decide)⟩

/-- C4 counterexample: a body with `deviceId = "A"` and `timestamp = 0` has a
present, integer timestamp, so the spec's validation predicate calls it
valid, yet the handler's JavaScript-falsiness check `!data.timestamp`
classifies it invalid. -/
theorem post_validation_spec_counterexample :
    ¬ ((postInvalid (mkRaw (some "A") (some 0)) = true) ↔
      specInvalid (mkRaw (some "A") (some 0))) := by
  decide

/-- C4 amended: the handler classifies a body invalid exactly when deviceId
is absent or empty, or timestamp is absent or zero (JavaScript falsiness of
`!data.timestamp` also rejects the integer 0); ingesting a body with empty
deviceId yields `rejected` and leaves the store unchanged. -/
theorem post_validation_falsiness :
    (∀ raw : RawData, postInvalid raw = true ↔
      (raw.deviceId = none ∨ raw.deviceId = some "" ∨
        raw.timestamp = none ∨ raw.timestamp = some 0)) ∧
    (∀ (db : D1State) (created : Nat) (raw : RawData),
      raw.deviceId = some "" →
      handlePost true (some raw) created db = (.rejected, db)) := by
  constructor
  · intro raw
    cases hd : raw.deviceId <;> cases ht : raw.timestamp <;>
      simp [postInvalid, jsFalsyStr, jsFalsyInt, hd, ht]
  · intro db created raw h
    have hinv : postInvalid raw = true := by
      simp [postInvalid, jsFalsyStr, h]
    simp [handlePost, hinv]

/-- Witness for C4's amended claim at a concrete empty-deviceId body. -/
theorem post_validation_falsiness_witness :
    (mkRaw (some "") (some 5)).deviceId = some "" ∧
    handlePost true (some (mkRaw (some "") (some 5))) 0 D1State.empty =
      (.rejected, D1State.empty) :=
  ⟨rfl, post_validation_falsiness.2 D1State.empty 0 (mkRaw (some "") (some 5))
    rfl⟩

/-- C1: `writeBatchData` submits the whole batch as one D1 transaction:
either it commits and every sample of the batch is recorded as a row of the
store, or it fails — also mid-batch, at any injected failure position — and
the store state is exactly what it was before the call. -/
theorem writeBatchData_atomic (db : D1State) (samples : List UnityData)
    (failsAt : Nat → Bool) (created : Nat) (hne : samples ≠ []) :
    ((writeBatchData db samples failsAt created).1 = false ∧
      (writeBatchData db samples failsAt created).2 = db) ∨
    ((writeBatchData db samples failsAt created).1 = true ∧
      ∀ s ∈ samples,
        ∃ r ∈ (writeBatchData db samples failsAt created).2.rows,
          rowRecords r s) := by
  unfold writeBatchData d1Batch
  cases h : (List.range samples.length).any failsAt
  · right
    refine ⟨by simp [h], ?_⟩
    intro s hs
    simpa [h] using foldl_writeData_records created samples db s hs
  · left
    simp [h]

/-- Witness for C1: a concrete two-sample batch with no injected failure. -/
theorem writeBatchData_atomic_witness :
    ([mkSample "A" 1, mkSample "B" 2] : List UnityData) ≠ [] ∧
    (((writeBatchData D1State.empty [mkSample "A" 1, mkSample "B" 2]
        (fun _ => false) 0).1 = false ∧
      (writeBatchData D1State.empty [mkSample "A" 1, mkSample "B" 2]
        (fun _ => false) 0).2 = D1State.empty) ∨
    ((writeBatchData D1State.empty [mkSample "A" 1, mkSample "B" 2]
        (fun _ => false) 0).1 = true ∧
      ∀ s ∈ ([mkSample "A" 1, mkSample "B" 2] : List UnityData),
        ∃ r ∈ (writeBatchData D1State.empty [mkSample "A" 1, mkSample "B" 2]
          (fun _ => false) 0).2.rows, rowRecords r s)) :=
  ⟨by decide, writeBatchData_atomic D1State.empty
    [mkSample "A" 1, mkSample "B" 2] (fun _ => false) 0 (by decide)⟩

/-- C3: the range query returns exactly the stored rows of the requested
device with `startTime ≤ timestamp ≤ endTime` (a permutation of that filter
of the table, so bounds are inclusive and no cap is applied), every returned
row satisfies the predicate, and the result is sorted ascending by
timestamp. -/
theorem getDataByTimeRange_exact (db : D1State) (d : String)
    (startTime endTime : Int) :
    (getDataByTimeRange db d startTime endTime).Perm
      (db.rows.filter fun r =>
        r.device_id == d && decide (startTime ≤ r.timestamp) &&
          decide (r.timestamp ≤ endTime)) ∧
    (∀ r ∈ getDataByTimeRange db d startTime endTime,
      r.device_id = d ∧ startTime ≤ r.timestamp ∧ r.timestamp ≤ endTime) ∧
    List.Sorted (fun a b => a.timestamp ≤ b.timestamp)
      (getDataByTimeRange db d startTime endTime) := by
  unfold getDataByTimeRange
  refine ⟨List.perm_insertionSort _ _, ?_, ?_⟩
  · intro r hr
    have hmem := (List.perm_insertionSort tsAscLe _).subset hr
    have hcond := List.of_mem_filter hmem
    simp only [Bool.and_eq_true, decide_eq_true_eq, beq_iff_eq] at hcond
    exact ⟨hcond.1.1, hcond.1.2, hcond.2⟩
  · have hs := List.sorted_insertionSort tsAscLe
      (db.rows.filter fun r =>
        r.device_id == d && decide (startTime ≤ r.timestamp) &&
          decide (r.timestamp ≤ endTime))
    refine hs.imp ?_
    intro a b hab
    rcases hab with h | ⟨h, _⟩
    · exact le_of_lt h
    · exact le_of_eq h

/-- C6: the all-devices latest query returns at most `limit` rows, sorted
descending by timestamp (ties by descending rowid, i.e. insertion recency),
and on the spec's concrete scenario — insert `A@100`, `A@300`, `B@200` —
`latest(10)` returns `[A@300, B@200, A@100]`. -/
theorem getAllLatestData_spec :
    (∀ (db : D1State) (limit : Nat),
      (getAllLatestData db limit).length ≤ limit) ∧
    (∀ (db : D1State) (limit : Nat),
      List.Sorted (fun a b => b.timestamp ≤ a.timestamp)
        (getAllLatestData db limit)) ∧
    getAllLatestData dbScenario 10 =
      [bindRow (mkSample "A" 300) 2 0, bindRow (mkSample "B" 200) 3 0,
        bindRow (mkSample "A" 100) 1 0] := by
  refine ⟨?_, ?_, by decide⟩
  · intro db limit
    unfold getAllLatestData
    rw [List.length_take]
    exact min_le_left _ _
  · intro db limit
    unfold getAllLatestData
    have hs := List.sorted_insertionSort tsDescLe db.rows
    refine (List.Pairwise.sublist (List.take_sublist _ _) hs).imp ?_
    intro a b hab
    rcases hab with h | ⟨h, _⟩
    · exact le_of_lt h
    · exact le_of_eq h.symm

/-- C2: writing a valid sample whose timestamp is not older than any stored
record of its device and immediately querying that device's latest record
with limit 1 returns exactly the row just written, whose sample columns all
equal the sample's fields. -/
theorem writeData_roundtrip (db : D1State) (s : UnityData) (created : Nat)
    (hwf : ∀ r ∈ db.rows, r.id < db.nextId)
    (hdev : s.deviceId ≠ "") (hts : s.timestamp ≠ 0)
    (hnew : ∀ r ∈ db.rows, r.device_id = s.deviceId →
      r.timestamp ≤ s.timestamp) :
    getLatestData (writeData db s created) s.deviceId 1 =
      [bindRow s db.nextId created] ∧
    rowRecords (bindRow s db.nextId created) s := by
  refine ⟨?_, rowRecords_bindRow s db.nextId created⟩
  unfold getLatestData writeData
  rw [List.filter_append]
  have hone : (List.filter (fun r => r.device_id == s.deviceId)
      [bindRow s db.nextId created]) = [bindRow s db.nextId created] := by
    simp
  rw [hone]
  apply take_one_insertionSort_eq
  · exact List.mem_append_right _ (List.mem_singleton.mpr rfl)
  · intro x hx
    rcases List.mem_append.mp hx with hxf | hxe
    · right
      have hxrows := List.mem_of_mem_filter hxf
      have hxdev : x.device_id = s.deviceId := by
        simpa using List.of_mem_filter hxf
      have hxid : x.id < db.nextId := hwf x hxrows
      have hxts : x.timestamp ≤ s.timestamp := hnew x hxrows hxdev
      constructor
      · rcases lt_or_eq_of_le hxts with hlt | heq
        · exact Or.inl (by simpa using hlt)
        · exact Or.inr ⟨by simpa using heq.symm, by simpa using le_of_lt hxid⟩
      · intro hcon
        rcases hcon with hlt | ⟨_, hle⟩
        · simp only [bindRow_timestamp] at hlt
          omega
        · simp only [bindRow_id] at hle
          omega
    · exact Or.inl (List.mem_singleton.mp hxe)

/-- Witness for C2: one sample written into the empty store. -/
theorem writeData_roundtrip_witness :
    (∀ r ∈ D1State.empty.rows, r.id < D1State.empty.nextId) ∧
    (mkSample "A" 5).deviceId ≠ "" ∧
    (mkSample "A" 5).timestamp ≠ 0 ∧
    (∀ r ∈ D1State.empty.rows, r.device_id = (mkSample "A" 5).deviceId →
      r.timestamp ≤ (mkSample "A" 5).timestamp) ∧
    (getLatestData (writeData D1State.empty (mkSample "A" 5) 0)
        (mkSample "A" 5).deviceId 1 = [bindRow (mkSample "A" 5) 1 0] ∧
      rowRecords (bindRow (mkSample "A" 5) 1 0) (mkSample "A" 5)) :=
  ⟨by decide, by decide, by decide, by decide,
    writeData_roundtrip D1State.empty (mkSample "A" 5) 0 (by decide)
      (by decide) (by decide) (by decide)⟩
